import Mathlib

/-!
Shallow embedding of the round / production-queue / evaluation logic of the
timed pizza-production exercise app (React + Supabase client code).  The
definitions mirror the source functions; field and function names follow the
Portuguese identifiers of the source.  Timestamps are epoch milliseconds as
integers, the shared `pizzas` table is a list of rows.
-/

/-- Status column of a `pizzas` row (`em_producao`, `pronta`, `avaliada`). -/
inductive PizzaStatus
  | em_producao
  | pronta
  | avaliada
deriving DecidableEq, Repr

/-- Result column of an evaluated pizza (`aprovada` or `reprovada`);
`none` in the row means not yet evaluated. -/
inductive Resultado
  | aprovada
  | reprovada
deriving DecidableEq, Repr

/-- A row of the `pizzas` table, with the columns the embedded operations
read or write. -/
structure Pizza where
  id : Nat
  equipe_id : String
  rodada_id : String
  sabor_id : Option String
  status : PizzaStatus
  resultado : Option Resultado
  justificativa_reprovacao : Option String
  avaliado_por : Option String
  created_at : Int
  updated_at : Int
deriving DecidableEq, Repr

/-- Status column of a `rodadas` row. -/
inductive RodadaStatus
  | aguardando
  | ativa
  | pausada
  | finalizada
deriving DecidableEq, Repr

/-- A row of the `rodadas` table.  `tempo_limite` is in seconds,
`iniciou_em` / `finalizou_em` are epoch milliseconds. -/
structure Rodada where
  id : String
  numero : Nat
  status : RodadaStatus
  tempo_limite : Int
  iniciou_em : Option Int
  finalizou_em : Option Int
deriving DecidableEq, Repr

/-- `adicionarMinutos` (ProducaoScreen.tsx): the new `tempo_limite` written to
the round row is the old one plus `minutos * 60`, with no other adjustment. -/
def adicionarMinutos (tempo_limite : Int) (minutos : Int) : Int :=
  tempo_limite + minutos * 60

/-- Grace window after a round finishes (`TEMPO_ADICIONAL_SEGUNDOS = 60`). -/
def TEMPO_ADICIONAL_SEGUNDOS : Int := 60

/-- `calcularTempoRestante` (useProdutos.ts / usePizzasParaAvaliacao): remaining
seconds of the post-finish grace window.  Returns `none` unless the round is
`finalizada` with `finalizou_em` set; otherwise `ceil(ms / 1000)` of the time
to `finalizou_em + 60s`, clamped to `0`.  `Math.ceil (x / 1000)` on a positive
integer `x` of milliseconds is `(x + 999) / 1000`. -/
def calcularTempoRestante (rodadaAtual : Option Rodada) (agora : Int) : Option Int :=
  match rodadaAtual with
  | none => none
  | some r =>
    if r.status = RodadaStatus.finalizada then
      match r.finalizou_em with
      | none => none
      | some fimRodada =>
        let fimTempoAdicional := fimRodada + TEMPO_ADICIONAL_SEGUNDOS * 1000
        let tempoRestanteMs := fimTempoAdicional - agora
        if tempoRestanteMs ≤ 0 then some 0
        else some ((tempoRestanteMs + 999) / 1000)
    else none

/-- `updateTimer` (EquipeScreen.tsx): remaining seconds shown while a round is
active, `Math.ceil (Math.max 0 (duracao - decorrido) / 1000)`. -/
def updateTimerTempoRestante (inicioRodada : Int) (tempo_limite : Int) (agora : Int) : Int :=
  let duracaoRodada := tempo_limite * 1000
  let tempoDecorrido := agora - inicioRodada
  let resto := max 0 (duracaoRodada - tempoDecorrido)
  (resto + 999) / 1000

/-- The clock-reconciliation formula as the spec words it (§4.1):
`ceil((anchor_time + limit_ms - now) / 1000)` floored at zero.  It is stated
with integer floor division, using `ceil (a / b) = floor ((a + b - 1) / b)`
for a positive divisor. -/
def specRemainingSeconds (anchorTime : Int) (limitMs : Int) (now : Int) : Int :=
  max 0 ((anchorTime + limitMs - now + 999) / 1000)

/-- Claim C4: for every anchor timestamp, time limit and current local time,
the clock-reconciliation computations return remaining seconds equal to
`ceil((anchor_time + limit*1000 - now)/1000)` floored at zero, hence never a
negative value.  Both the active-round timer (`updateTimerTempoRestante`, with
anchor `iniciou_em` and limit `tempo_limite`) and the grace-window computation
(`calcularTempoRestante`, with anchor `finalizou_em` and limit 60 s) satisfy
the formula.  The embedded computations are pure functions returning a value
and mutating nothing. -/
theorem clock_reconciler_ceil_floor_zero :
    ∀ (inicio limite agora : Int),
      updateTimerTempoRestante inicio limite agora
          = specRemainingSeconds inicio (limite * 1000) agora ∧
      0 ≤ updateTimerTempoRestante inicio limite agora ∧
      ∀ (r : Rodada) (fim : Int),
        r.status = RodadaStatus.finalizada → r.finalizou_em = some fim →
          calcularTempoRestante (some r) agora
              = some (specRemainingSeconds fim (TEMPO_ADICIONAL_SEGUNDOS * 1000) agora) ∧
          0 ≤ specRemainingSeconds fim (TEMPO_ADICIONAL_SEGUNDOS * 1000) agora := by
  intro inicio limite agora
  refine ⟨?_, ?_, ?_⟩
  · simp only [updateTimerTempoRestante, specRemainingSeconds]
    omega
  · simp only [updateTimerTempoRestante]
    omega
  · intro r fim hst hfim
    constructor
    · simp only [calcularTempoRestante, hst, hfim, if_pos, specRemainingSeconds,
        TEMPO_ADICIONAL_SEGUNDOS]
      split
      · simp only [Option.some.injEq]
        omega
      · simp only [Option.some.injEq]
        omega
    · simp only [specRemainingSeconds]
      omega

/-- Witness for C4 at a concrete input: round finished at t = 100000 ms, now
110000 ms, so 50 s of the 60 s grace window remain. -/
theorem clock_reconciler_ceil_floor_zero_witness :
    calcularTempoRestante
        (some { id := "r1", numero := 1, status := RodadaStatus.finalizada,
                tempo_limite := 300, iniciou_em := some 0,
                finalizou_em := some 100000 }) 110000
      = some (specRemainingSeconds 100000 (TEMPO_ADICIONAL_SEGUNDOS * 1000) 110000) := by
  exact ((clock_reconciler_ceil_floor_zero 0 300 110000).2.2
    { id := "r1", numero := 1, status := RodadaStatus.finalizada,
      tempo_limite := 300, iniciou_em := some 0, finalizou_em := some 100000 }
    100000 rfl rfl).1

/-- Claim C3 counterexample: the claim states that for a negative delta,
`extend` never reduces `time_limit_seconds` below the elapsed time already
consumed (floor at elapsed + 1 s).  `adicionarMinutos` has no such floor: at
`tempo_limite = 60`, elapsed `50`, delta `-1`, the new limit is `0 < 50 + 1`. -/
theorem adicionarMinutos_floor_counterexample :
    ¬ ∀ (tempo_limite elapsed minutos : Int),
        minutos < 0 → 0 ≤ elapsed → elapsed ≤ tempo_limite →
          elapsed + 1 ≤ adicionarMinutos tempo_limite minutos := by
  intro h
  have h2 := h 60 50 (-1) (by omega) (by omega) (by omega)
  simp only [adicionarMinutos] at h2
  omega

/-- Claim C3 amended: `adicionarMinutos` adds `delta * 60` seconds to
`tempo_limite` unconditionally.  A positive delta strictly increases the
limit by `delta * 60`; a negative delta subtracts `|delta| * 60` with no floor
at the elapsed time: for every limit and every elapsed value some negative
delta drives the new limit strictly below it (even below zero). -/
theorem adicionarMinutos_unconditional_delta :
    ∀ (tempo_limite minutos : Int),
      (0 < minutos →
        adicionarMinutos tempo_limite minutos = tempo_limite + minutos * 60 ∧
        tempo_limite < adicionarMinutos tempo_limite minutos) ∧
      (minutos < 0 →
        adicionarMinutos tempo_limite minutos = tempo_limite - (-minutos) * 60) ∧
      ∀ elapsed : Int, ∃ m : Int,
        m < 0 ∧ adicionarMinutos tempo_limite m < elapsed := by
  intro tempo_limite minutos
  refine ⟨?_, ?_, ?_⟩
  · intro hpos
    refine ⟨rfl, ?_⟩
    simp only [adicionarMinutos]
    omega
  · intro hneg
    simp only [adicionarMinutos]
    omega
  · intro elapsed
    refine ⟨-(max 0 (tempo_limite - elapsed) + 1), ?_, ?_⟩
    · omega
    · simp only [adicionarMinutos]
      omega

/-- Witness for the amended C3 at concrete inputs: with limit 300 s, `+1`
minute yields 360 s, `-1` minute yields 240 s. -/
theorem adicionarMinutos_unconditional_delta_witness :
    adicionarMinutos 300 1 = 300 + 1 * 60 ∧
    adicionarMinutos 300 (-1) = 300 - (-(-1)) * 60 := by
  exact ⟨((adicionarMinutos_unconditional_delta 300 1).1 (by omega)).1,
    (adicionarMinutos_unconditional_delta 300 (-1)).2.1 (by omega)⟩

/-- Fixed system-generated rejection reason written by the auto-timeout
rejection (`useAvaliacaoTimeout.reprovarPizzasNaoAvaliadas`). -/
def reprovacaoAutomaticaJustificativa : String :=
  "Tempo de avaliação esgotado - reprovação automática"

/-- Evaluator marker written by the automatic rejection. -/
def avaliadorSistema : String := "Sistema - Timeout"

/-- Evaluator marker written by manual evaluation (`avaliarPizza`). -/
def avaliadorManual : String := "Avaliador"

/-- The row update applied by the bulk auto-rejection to one matching pizza:
`status = 'avaliada'`, `resultado = 'reprovada'`, the fixed reason, the
system evaluator marker, and a fresh `updated_at`. -/
def reprovacaoAutomaticaPizza (p : Pizza) (agora : Int) : Pizza :=
  { p with
    status := PizzaStatus.avaliada
    resultado := some Resultado.reprovada
    justificativa_reprovacao := some reprovacaoAutomaticaJustificativa
    avaliado_por := some avaliadorSistema
    updated_at := agora }

/-- Effect of the conditional bulk update on a single row: rewritten when it
matches the predicate `rodada_id = rodadaId ∧ status = 'pronta' ∧ resultado
is null`, untouched otherwise. -/
def reprovacaoPasso (rodadaId : String) (agora : Int) (p : Pizza) : Pizza :=
  if p.rodada_id = rodadaId ∧ p.status = PizzaStatus.pronta ∧ p.resultado = none then
    reprovacaoAutomaticaPizza p agora
  else p

/-- `reprovarPizzasNaoAvaliadas` (useProdutos.ts): bulk update of every row
with `rodada_id = rodadaId`, `status = 'pronta'` and `resultado` null; every
other row is untouched. -/
def reprovarPizzasNaoAvaliadas (s : List Pizza) (rodadaId : String) (agora : Int) :
    List Pizza :=
  s.map (reprovacaoPasso rodadaId agora)

/-- The select that precedes the bulk update: rows of the round still
`pronta` with no `resultado` (the rows the update predicate matches). -/
def pizzasPendentes (s : List Pizza) (rodadaId : String) : List Pizza :=
  s.filter fun p =>
    p.rodada_id = rodadaId ∧ p.status = PizzaStatus.pronta ∧ p.resultado = none

/-- The row update applied by manual evaluation to the pizza with the given
id: the reason is stored only for a rejection, and the evaluator marker is
`avaliadorManual`. -/
def avaliacaoManualPizza (p : Pizza) (resultado : Resultado)
    (justificativa : Option String) (agora : Int) : Pizza :=
  { p with
    status := PizzaStatus.avaliada
    resultado := some resultado
    justificativa_reprovacao :=
      if resultado = Resultado.reprovada then justificativa else none
    avaliado_por := some avaliadorManual
    updated_at := agora }

/-- `avaliarPizza` (usePizzasParaAvaliacao): single-row update keyed only on
`id = pizzaId`; no precondition on the current `resultado` of the row. -/
def avaliarPizza (s : List Pizza) (pizzaId : Nat) (resultado : Resultado)
    (justificativa : Option String) (agora : Int) : List Pizza :=
  s.map fun p =>
    if p.id = pizzaId then avaliacaoManualPizza p resultado justificativa agora
    else p

/-- A concrete already-evaluated pizza used as a counterexample input. -/
def pizzaJaAvaliada : Pizza :=
  { id := 1, equipe_id := "e1", rodada_id := "r1", sabor_id := some "s1",
    status := PizzaStatus.avaliada, resultado := some Resultado.aprovada,
    justificativa_reprovacao := none, avaliado_por := some avaliadorManual,
    created_at := 0, updated_at := 0 }

/-- Claim C2 counterexample: the claim states that evaluating an item whose
result is already set fails and leaves the item unchanged.  `avaliarPizza`
filters only on `id`: re-evaluating the already-approved `pizzaJaAvaliada`
succeeds and overwrites its result with `reprovada`, so the store changes. -/
theorem avaliarPizza_already_evaluated_counterexample :
    pizzaJaAvaliada.resultado = some Resultado.aprovada ∧
    (avaliarPizza [pizzaJaAvaliada] 1 Resultado.reprovada (some "motivo") 5).map
        Pizza.resultado = [some Resultado.reprovada] ∧
    avaliarPizza [pizzaJaAvaliada] 1 Resultado.reprovada (some "motivo") 5
      ≠ [pizzaJaAvaliada] := by
  refine ⟨rfl, rfl, fun h => ?_⟩
  have h2 := congrArg (List.map Pizza.resultado) h
  simp only [avaliarPizza, avaliacaoManualPizza, pizzaJaAvaliada, List.map] at h2
  exact absurd (List.cons.injEq .. ▸ h2) (by simp)

/-- Claim C2 amended: `avaliarPizza` never fails on an already-evaluated item
and does not leave it unchanged: it applies the update to every row whose id
matches, overwriting any previously set result (results are mutable), while
rows with a different id are untouched. -/
theorem avaliarPizza_overwrites :
    ∀ (s : List Pizza) (pizzaId : Nat) (resultado : Resultado)
      (justificativa : Option String) (agora : Int),
      (∀ p ∈ s, p.id = pizzaId →
        avaliacaoManualPizza p resultado justificativa agora
          ∈ avaliarPizza s pizzaId resultado justificativa agora ∧
        (avaliacaoManualPizza p resultado justificativa agora).resultado
          = some resultado) ∧
      (∀ p ∈ s, p.id ≠ pizzaId →
        p ∈ avaliarPizza s pizzaId resultado justificativa agora) := by
  intro s pizzaId resultado justificativa agora
  constructor
  · intro p hp hid
    refine ⟨?_, rfl⟩
    simp only [avaliarPizza, List.mem_map]
    exact ⟨p, hp, by rw [if_pos hid]⟩
  · intro p hp hid
    simp only [avaliarPizza, List.mem_map]
    exact ⟨p, hp, by rw [if_neg hid]⟩

/-- Witness for the amended C2: re-evaluating the already-approved
`pizzaJaAvaliada` (id 1) puts its rejected version in the updated store. -/
theorem avaliarPizza_overwrites_witness :
    avaliacaoManualPizza pizzaJaAvaliada Resultado.reprovada (some "motivo") 5
      ∈ avaliarPizza [pizzaJaAvaliada] 1 Resultado.reprovada (some "motivo") 5 := by
  exact ((avaliarPizza_overwrites [pizzaJaAvaliada] 1 Resultado.reprovada
    (some "motivo") 5).1 pizzaJaAvaliada (by simp) rfl).1

/-- A rewritten row never matches the bulk-update predicate again, and rows
that do not match are returned unchanged, so the per-row update is
idempotent. -/
theorem reprovacaoPasso_idem (rodadaId : String) (agora agora2 : Int) (p : Pizza) :
    reprovacaoPasso rodadaId agora2 (reprovacaoPasso rodadaId agora p)
      = reprovacaoPasso rodadaId agora p := by
  by_cases hpend : p.rodada_id = rodadaId ∧ p.status = PizzaStatus.pronta ∧ p.resultado = none
  · have h1 : reprovacaoPasso rodadaId agora p = reprovacaoAutomaticaPizza p agora := by
      rw [reprovacaoPasso, if_pos hpend]
    rw [h1, reprovacaoPasso, if_neg (by simp [reprovacaoAutomaticaPizza])]
  · have h1 : reprovacaoPasso rodadaId agora p = p := by
      rw [reprovacaoPasso, if_neg hpend]
    rw [h1, reprovacaoPasso, if_neg hpend]

/-- Per-process state of `useAvaliacaoTimeout`: the set of round ids already
processed (`tempoAdicionalProcessadoRef`), and the two pieces of display
state the effect sets. -/
structure AvaliacaoTimeoutState where
  tempoAdicionalProcessado : List String
  tempoRestante : Option Int
  estaNoTempoAdicional : Bool
deriving DecidableEq, Repr

/-- The body of the `useAvaliacaoTimeout` effect (useProdutos.ts): bail out
unless the round is `finalizada`; bail out if this round id was already
processed; otherwise compute the remaining grace time, and when it is
already exhausted run the bulk rejection and record the round id in the
processed set.  Returns the new hook state and the new `pizzas` table. -/
def avaliacaoTimeoutEffect (st : AvaliacaoTimeoutState) (s : List Pizza)
    (rodadaAtual : Option Rodada) (agora : Int) :
    AvaliacaoTimeoutState × List Pizza :=
  match rodadaAtual with
  | none => ({ st with tempoRestante := none, estaNoTempoAdicional := false }, s)
  | some r =>
    if r.status ≠ RodadaStatus.finalizada then
      ({ st with tempoRestante := none, estaNoTempoAdicional := false }, s)
    else if r.id ∈ st.tempoAdicionalProcessado then
      ({ st with tempoRestante := some 0, estaNoTempoAdicional := false }, s)
    else
      match calcularTempoRestante (some r) agora with
      | none => ({ st with estaNoTempoAdicional := true }, s)
      | some tempoInicial =>
        if tempoInicial ≤ 0 then
          ({ st with
              tempoAdicionalProcessado := r.id :: st.tempoAdicionalProcessado,
              tempoRestante := some 0, estaNoTempoAdicional := false },
            reprovarPizzasNaoAvaliadas s r.id agora)
        else
          ({ st with tempoRestante := some tempoInicial, estaNoTempoAdicional := true }, s)

/-- Claim C1: for a finished round, the first invocation of the auto-timeout
rejection rewrites each previously pending (ready, unevaluated) row of the
round exactly once at its position and leaves all other rows unchanged; after
it, the bulk update predicate matches zero rows (`pizzasPendentes` of the
round is empty), so a second invocation is the identity on the store; and the
per-process processed set of `useAvaliacaoTimeout` suppresses any repeat
trigger for a round id it already contains, returning the store untouched. -/
theorem reprovacao_automatica_exactly_once :
    ∀ (s : List Pizza) (rodadaId : String) (t t2 : Int),
      (reprovarPizzasNaoAvaliadas s rodadaId t).length = s.length ∧
      (∀ (i : Nat) (h : i < s.length),
        (s[i].rodada_id = rodadaId ∧ s[i].status = PizzaStatus.pronta ∧
            s[i].resultado = none →
          (reprovarPizzasNaoAvaliadas s rodadaId t)[i]?
            = some (reprovacaoAutomaticaPizza s[i] t)) ∧
        (¬ (s[i].rodada_id = rodadaId ∧ s[i].status = PizzaStatus.pronta ∧
            s[i].resultado = none) →
          (reprovarPizzasNaoAvaliadas s rodadaId t)[i]? = some s[i])) ∧
      pizzasPendentes (reprovarPizzasNaoAvaliadas s rodadaId t) rodadaId = [] ∧
      reprovarPizzasNaoAvaliadas (reprovarPizzasNaoAvaliadas s rodadaId t) rodadaId t2
        = reprovarPizzasNaoAvaliadas s rodadaId t ∧
      (∀ (st : AvaliacaoTimeoutState) (r : Rodada) (agora : Int),
        r.status = RodadaStatus.finalizada → r.id ∈ st.tempoAdicionalProcessado →
          avaliacaoTimeoutEffect st s (some r) agora
            = ({ st with tempoRestante := some 0, estaNoTempoAdicional := false }, s)) := by
  intro s rodadaId t t2
  refine ⟨by simp [reprovarPizzasNaoAvaliadas], ?_, ?_, ?_, ?_⟩
  · intro i h
    constructor
    · intro hpend
      rw [reprovarPizzasNaoAvaliadas, List.getElem?_map,
        List.getElem?_eq_getElem h, Option.map_some', reprovacaoPasso, if_pos hpend]
    · intro hpend
      rw [reprovarPizzasNaoAvaliadas, List.getElem?_map,
        List.getElem?_eq_getElem h, Option.map_some', reprovacaoPasso, if_neg hpend]
  · rw [List.eq_nil_iff_forall_not_mem]
    intro q hq
    rw [pizzasPendentes, List.mem_filter, decide_eq_true_eq] at hq
    obtain ⟨hqmem, hqpred⟩ := hq
    rw [reprovarPizzasNaoAvaliadas, List.mem_map] at hqmem
    obtain ⟨p, _, hfp⟩ := hqmem
    by_cases hpend : p.rodada_id = rodadaId ∧ p.status = PizzaStatus.pronta ∧
        p.resultado = none
    · rw [reprovacaoPasso, if_pos hpend] at hfp
      subst hfp
      simp [reprovacaoAutomaticaPizza] at hqpred
    · rw [reprovacaoPasso, if_neg hpend] at hfp
      subst hfp
      exact hpend hqpred
  · rw [reprovarPizzasNaoAvaliadas, reprovarPizzasNaoAvaliadas, List.map_map]
    refine List.map_congr_left ?_
    intro p _
    exact reprovacaoPasso_idem rodadaId t t2 p
  · intro st r agora hst hmem
    rw [avaliacaoTimeoutEffect]
    simp only [hst, hmem]
    simp

/-- Witness for C1 at concrete inputs: a one-row store whose row is pending
for round `r1`; the first invocation rewrites it, the second invocation is
the identity, and a processed-set hit suppresses the effect. -/
theorem reprovacao_automatica_exactly_once_witness :
    (reprovarPizzasNaoAvaliadas
        [{ id := 1, equipe_id := "e1", rodada_id := "r1", sabor_id := some "s1",
           status := PizzaStatus.pronta, resultado := none,
           justificativa_reprovacao := none, avaliado_por := none,
           created_at := 0, updated_at := 0 }] "r1" 7)[0]?
      = some (reprovacaoAutomaticaPizza
          { id := 1, equipe_id := "e1", rodada_id := "r1", sabor_id := some "s1",
            status := PizzaStatus.pronta, resultado := none,
            justificativa_reprovacao := none, avaliado_por := none,
            created_at := 0, updated_at := 0 } 7) ∧
    avaliacaoTimeoutEffect
        { tempoAdicionalProcessado := ["r1"], tempoRestante := some 0,
          estaNoTempoAdicional := false }
        [] (some { id := "r1", numero := 1, status := RodadaStatus.finalizada,
                   tempo_limite := 300, iniciou_em := some 0,
                   finalizou_em := some 0 }) 100000
      = ({ tempoAdicionalProcessado := ["r1"], tempoRestante := some 0,
           estaNoTempoAdicional := false }, []) := by
  constructor
  · exact (((reprovacao_automatica_exactly_once
      [{ id := 1, equipe_id := "e1", rodada_id := "r1", sabor_id := some "s1",
         status := PizzaStatus.pronta, resultado := none,
         justificativa_reprovacao := none, avaliado_por := none,
         created_at := 0, updated_at := 0 }] "r1" 7 7).2.1 0 (by simp)).1
      ⟨rfl, rfl, rfl⟩)
  · exact ((reprovacao_automatica_exactly_once [] "r1" 7 7).2.2.2.2
      { tempoAdicionalProcessado := ["r1"], tempoRestante := some 0,
        estaNoTempoAdicional := false }
      { id := "r1", numero := 1, status := RodadaStatus.finalizada,
        tempo_limite := 300, iniciou_em := some 0, finalizou_em := some 0 }
      100000 rfl (by simp))

/-- Claim C8: when the auto-timeout rejection fires for a round, every row of
that round with `status = 'pronta'` and no `resultado` appears in the updated
store as `status = 'avaliada'`, `resultado = 'reprovada'`, with the one fixed
system-generated reason and the evaluator marker `'Sistema - Timeout'`; that
marker is distinct from the `'Avaliador'` marker that manual evaluation
(`avaliacaoManualPizza`, used by `avaliarPizza`) always writes. -/
theorem reprovacao_automatica_campos_e_marcador :
    ∀ (s : List Pizza) (rodadaId : String) (agora : Int) (p : Pizza),
      p ∈ s → p.rodada_id = rodadaId → p.status = PizzaStatus.pronta →
      p.resultado = none →
        reprovacaoAutomaticaPizza p agora ∈ reprovarPizzasNaoAvaliadas s rodadaId agora ∧
        (reprovacaoAutomaticaPizza p agora).status = PizzaStatus.avaliada ∧
        (reprovacaoAutomaticaPizza p agora).resultado = some Resultado.reprovada ∧
        (reprovacaoAutomaticaPizza p agora).justificativa_reprovacao
          = some reprovacaoAutomaticaJustificativa ∧
        (reprovacaoAutomaticaPizza p agora).avaliado_por = some avaliadorSistema ∧
        avaliadorSistema ≠ avaliadorManual ∧
        ∀ (resultado : Resultado) (justificativa : Option String) (t : Int),
          (avaliacaoManualPizza p resultado justificativa t).avaliado_por
            = some avaliadorManual := by
  intro s rodadaId agora p hp hrid hst hres
  refine ⟨?_, rfl, rfl, rfl, rfl, by decide, fun _ _ _ => rfl⟩
  rw [reprovarPizzasNaoAvaliadas, List.mem_map]
  exact ⟨p, hp, by rw [reprovacaoPasso, if_pos ⟨hrid, hst, hres⟩]⟩

/-- Witness for C8 at a concrete input: the single pending row of round `r1`
is rewritten with the system reason and marker. -/
theorem reprovacao_automatica_campos_e_marcador_witness :
    reprovacaoAutomaticaPizza
        { id := 2, equipe_id := "e2", rodada_id := "r1", sabor_id := none,
          status := PizzaStatus.pronta, resultado := none,
          justificativa_reprovacao := none, avaliado_por := none,
          created_at := 3, updated_at := 3 } 9
      ∈ reprovarPizzasNaoAvaliadas
          [{ id := 2, equipe_id := "e2", rodada_id := "r1", sabor_id := none,
             status := PizzaStatus.pronta, resultado := none,
             justificativa_reprovacao := none, avaliado_por := none,
             created_at := 3, updated_at := 3 }] "r1" 9 := by
  exact (reprovacao_automatica_campos_e_marcador
    [{ id := 2, equipe_id := "e2", rodada_id := "r1", sabor_id := none,
       status := PizzaStatus.pronta, resultado := none,
       justificativa_reprovacao := none, avaliado_por := none,
       created_at := 3, updated_at := 3 }] "r1" 9
    { id := 2, equipe_id := "e2", rodada_id := "r1", sabor_id := none,
      status := PizzaStatus.pronta, resultado := none,
      justificativa_reprovacao := none, avaliado_por := none,
      created_at := 3, updated_at := 3 }
    (by simp) rfl rfl rfl).1

/-- Oldest-first order on pizza rows (`order('created_at', ascending)`). -/
def pizzaCreatedLe (a b : Pizza) : Prop :=
  a.created_at ≤ b.created_at

instance : DecidableRel pizzaCreatedLe :=
  fun a b => inferInstanceAs (Decidable (a.created_at ≤ b.created_at))

instance : IsTotal Pizza pizzaCreatedLe :=
  ⟨fun a b => Int.le_total a.created_at b.created_at⟩

instance : IsTrans Pizza pizzaCreatedLe :=
  ⟨fun _ _ _ h1 h2 => le_trans h1 h2⟩

/-- `fetchPizzasParaAvaliacao` (usePizzasParaAvaliacao): the store query
`status = 'pronta' ∧ resultado is null`, ordered by `created_at` ascending,
with no team condition.  The `ORDER BY` of the store is embedded as a stable
sort by `created_at`. -/
def fetchPizzasParaAvaliacao (s : List Pizza) : List Pizza :=
  List.insertionSort pizzaCreatedLe
    (s.filter fun p => p.status = PizzaStatus.pronta ∧ p.resultado = none)

/-- Claim C9: for every store state, the listing offered for evaluation
contains exactly the rows with `status = 'pronta'` and no `resultado`
(same multiset, hence the same members, with no team restriction), ordered
oldest-first by `created_at`. -/
theorem listagem_para_avaliacao_exata :
    ∀ (s : List Pizza),
      (∀ p : Pizza, p ∈ fetchPizzasParaAvaliacao s ↔
        p ∈ s ∧ p.status = PizzaStatus.pronta ∧ p.resultado = none) ∧
      (fetchPizzasParaAvaliacao s).Perm
        (s.filter fun p => p.status = PizzaStatus.pronta ∧ p.resultado = none) ∧
      List.Sorted pizzaCreatedLe (fetchPizzasParaAvaliacao s) := by
  intro s
  refine ⟨?_, ?_, ?_⟩
  · intro p
    rw [fetchPizzasParaAvaliacao, List.mem_insertionSort, List.mem_filter,
      decide_eq_true_eq]
  · exact List.perm_insertionSort pizzaCreatedLe _
  · exact List.sorted_insertionSort pizzaCreatedLe _

/-- JS `String.prototype.trim` used by the hook: drop whitespace from both
ends of the string. -/
def trimJS (s : String) : String :=
  String.mk
    (((s.toList.dropWhile Char.isWhitespace).reverse.dropWhile
        Char.isWhitespace).reverse)

/-- The blank test of the team-scoped hook (`equipeId && equipeId.trim() !==
''`): the team filter is applied only when the id is non-empty and not
whitespace-only. -/
def nonBlankEquipeId (equipeId : String) : Bool :=
  !equipeId.isEmpty && !(trimJS equipeId).isEmpty

/-- Team-scoped `fetchPizzasParaAvaliacao` (the `usePizzasParaAvaliacao`
variant taking `equipeId`): same pending-rows query, plus
`eq('equipe_id', equipeId)` only when the id is non-blank. -/
def fetchPizzasParaAvaliacaoEquipe (s : List Pizza) (equipeId : String) : List Pizza :=
  let base := s.filter fun p => p.status = PizzaStatus.pronta ∧ p.resultado = none
  let comFiltro :=
    if nonBlankEquipeId equipeId then base.filter fun p => p.equipe_id = equipeId
    else base
  List.insertionSort pizzaCreatedLe comFiltro

/-- The realtime subscription config of the team-scoped hook. -/
structure ChannelConfig where
  event : String
  schema : String
  table : String
  filter : Option String
deriving DecidableEq, Repr

/-- `channelConfig` of the team-scoped hook: `postgres_changes` on the
`pizzas` table, with the row-level filter `equipe_id=eq.<id>` added only when
the id is non-blank. -/
def channelConfig (equipeId : String) : ChannelConfig :=
  { event := "*", schema := "public", table := "pizzas",
    filter :=
      if nonBlankEquipeId equipeId then some ("equipe_id=eq." ++ equipeId)
      else none }

/-- Claim C10: in the team-scoped evaluation-list hook, an empty or
whitespace-only team id disables the team condition — the fetch returns the
pending rows of every team (it coincides with the global listing) and the
subscription config carries no row-level filter; a non-blank id restricts the
fetch to that team's pending rows and sets the row-level filter
`equipe_id=eq.<id>`. -/
theorem equipe_em_branco_sem_filtro :
    ∀ (equipeId : String) (s : List Pizza),
      ((equipeId.isEmpty = true ∨ (trimJS equipeId).isEmpty = true) →
        fetchPizzasParaAvaliacaoEquipe s equipeId = fetchPizzasParaAvaliacao s ∧
        (channelConfig equipeId).filter = none) ∧
      (nonBlankEquipeId equipeId = true →
        (∀ p : Pizza, p ∈ fetchPizzasParaAvaliacaoEquipe s equipeId ↔
          (p ∈ s ∧ p.status = PizzaStatus.pronta ∧ p.resultado = none ∧
            p.equipe_id = equipeId)) ∧
        (channelConfig equipeId).filter = some ("equipe_id=eq." ++ equipeId)) := by
  intro equipeId s
  constructor
  · intro hblank
    have hnb : nonBlankEquipeId equipeId = false := by
      rw [nonBlankEquipeId]
      rcases hblank with h | h
      · simp [h]
      · simp [h]
    constructor
    · rw [fetchPizzasParaAvaliacaoEquipe, fetchPizzasParaAvaliacao]
      simp only [hnb, Bool.false_eq_true, if_false]
    · rw [channelConfig]
      simp only [hnb, Bool.false_eq_true, if_false]
  · intro hnb
    constructor
    · intro p
      rw [fetchPizzasParaAvaliacaoEquipe]
      simp only [hnb, if_true, List.mem_insertionSort, List.mem_filter,
        decide_eq_true_eq]
      tauto
    · rw [channelConfig]
      simp only [hnb, if_true]

/-- Witness for C10 at concrete inputs: a whitespace-only id disables both
filters; the id `e1` enables the row-level filter. -/
theorem equipe_em_branco_sem_filtro_witness :
    (fetchPizzasParaAvaliacaoEquipe [] " " = fetchPizzasParaAvaliacao [] ∧
      (channelConfig " ").filter = none) ∧
    (channelConfig "e1").filter = some ("equipe_id=eq." ++ "e1") := by
  constructor
  · exact (equipe_em_branco_sem_filtro " " []).1 (Or.inr (by decide))
  · exact ((equipe_em_branco_sem_filtro "e1" []).2 (by decide)).2

/-- The row inserted for a submitted pizza. Modelled from the spec: the hook
`usePizzas` and its `marcarPizzaPronta` are not under src/; per §4.5 the
submit creates the item directly in `ready` (`pronta`) status for the given
team, round and flavor. -/
def pizzaNova (novoId : Nat) (equipeId rodadaId saborId : String) (agora : Int) :
    Pizza :=
  { id := novoId, equipe_id := equipeId, rodada_id := rodadaId,
    sabor_id := some saborId, status := PizzaStatus.pronta, resultado := none,
    justificativa_reprovacao := none, avaliado_por := none,
    created_at := agora, updated_at := agora }

/-- Modelled from the spec: `marcarPizzaPronta` (hook `usePizzas`, not under
src/) inserts the submitted item, directly in `pronta` status (§4.5, §3
ProductionItem lifecycle). -/
def marcarPizzaPronta (pizzas : List Pizza) (novoId : Nat)
    (equipeId rodadaId saborId : String) (agora : Int) : List Pizza :=
  pizzas ++ [pizzaNova novoId equipeId rodadaId saborId agora]

/-- Modelled from the spec: the per-team per-round list held by `usePizzas`
(not under src/) contains every item created by the team in the round,
regardless of its status or result (§3: an item counts toward the quota from
the moment it is created; §9: count of created items regardless of later
outcome). -/
def pizzasDaEquipeNaRodada (s : List Pizza) (equipeId rodadaId : String) :
    List Pizza :=
  s.filter fun p => p.equipe_id = equipeId ∧ p.rodada_id = rodadaId

/-- `verificarLimitePizzas` (FilaProducao): the team reached the round limit
when `pizzas.length >= limitePizzasRodada`. -/
def verificarLimitePizzas (pizzas : List Pizza) (limitePizzasRodada : Nat) : Bool :=
  decide (limitePizzasRodada ≤ pizzas.length)

/-- `podeEnviarPizza` (FilaProducao): a submission is accepted only when a
current round exists, its status is `ativa`, and the synchronized timer is
active with remaining time > 0. -/
def podeEnviarPizza (rodadaAtual : Option Rodada) (isActive : Bool)
    (timeRemaining : Int) : Bool :=
  match rodadaAtual with
  | none => false
  | some r =>
    if r.status ≠ RodadaStatus.ativa then false
    else if !isActive || decide (timeRemaining ≤ 0) then false
    else true

/-- Outcome of one `handleEnviarPizza` call: the early returns of the source
(no current round, no flavor selected, round not accepting, quota reached) or
the successful insert carrying the new store. -/
inductive EnvioResultado
  | semRodada
  | saborNaoSelecionado
  | tempoEsgotado
  | limiteAtingido
  | enviado (novaLista : List Pizza)
deriving DecidableEq, Repr

/-- `handleEnviarPizza` (FilaProducao), with the source's guard order: bail
out without a round, require a selected flavor, require `podeEnviarPizza`,
require the quota not reached, then insert via `marcarPizzaPronta`. -/
def handleEnviarPizza (rodadaAtual : Option Rodada) (saborSelecionado : String)
    (pizzas : List Pizza) (limitePizzasRodada : Nat) (isActive : Bool)
    (timeRemaining : Int) (novoId : Nat) (equipeId : String) (agora : Int) :
    EnvioResultado :=
  match rodadaAtual with
  | none => EnvioResultado.semRodada
  | some r =>
    if saborSelecionado.isEmpty then EnvioResultado.saborNaoSelecionado
    else if !podeEnviarPizza (some r) isActive timeRemaining then
      EnvioResultado.tempoEsgotado
    else if verificarLimitePizzas pizzas limitePizzasRodada then
      EnvioResultado.limiteAtingido
    else
      EnvioResultado.enviado
        (marcarPizzaPronta pizzas novoId equipeId r.id saborSelecionado agora)

/-- An accepting round with a flavor selected and the quota not reached lets
the submission through, appending the new `pronta` row. -/
theorem handleEnviarPizza_sucesso (r : Rodada) (sabor : String)
    (pizzas : List Pizza) (L : Nat) (timeRemaining : Int) (novoId : Nat)
    (equipeId : String) (agora : Int)
    (hst : r.status = RodadaStatus.ativa) (hsabor : sabor.isEmpty = false)
    (htr : 0 < timeRemaining) (hlen : pizzas.length < L) :
    handleEnviarPizza (some r) sabor pizzas L true timeRemaining novoId equipeId
        agora
      = EnvioResultado.enviado
          (pizzas ++ [pizzaNova novoId equipeId r.id sabor agora]) := by
  have hpode : podeEnviarPizza (some r) true timeRemaining = true := by
    rw [podeEnviarPizza]
    rw [if_neg (by simp [hst])]
    rw [if_neg (by simp; omega)]
  simp only [handleEnviarPizza, hsabor, Bool.false_eq_true, if_false, hpode,
    Bool.not_true, verificarLimitePizzas, marcarPizzaPronta]
  rw [if_neg (by simp; omega)]

/-- With the quota reached (and the round otherwise accepting), the
submission is refused with the quota error. -/
theorem handleEnviarPizza_limite (r : Rodada) (sabor : String)
    (pizzas : List Pizza) (L : Nat) (timeRemaining : Int) (novoId : Nat)
    (equipeId : String) (agora : Int)
    (hst : r.status = RodadaStatus.ativa) (hsabor : sabor.isEmpty = false)
    (htr : 0 < timeRemaining) (hlen : L ≤ pizzas.length) :
    handleEnviarPizza (some r) sabor pizzas L true timeRemaining novoId equipeId
        agora
      = EnvioResultado.limiteAtingido := by
  have hpode : podeEnviarPizza (some r) true timeRemaining = true := by
    rw [podeEnviarPizza]
    rw [if_neg (by simp [hst])]
    rw [if_neg (by simp; omega)]
  simp only [handleEnviarPizza, hsabor, Bool.false_eq_true, if_false, hpode,
    Bool.not_true, verificarLimitePizzas]
  rw [if_pos (by simp; omega)]

/-- A round that is not `ativa`, or a timer at or below zero, is refused with
the round-not-accepting error, for any `isActive` flag. -/
theorem handleEnviarPizza_tempoEsgotado (r : Rodada) (sabor : String)
    (pizzas : List Pizza) (L : Nat) (isActive : Bool) (timeRemaining : Int)
    (novoId : Nat) (equipeId : String) (agora : Int)
    (hsabor : sabor.isEmpty = false)
    (h : r.status ≠ RodadaStatus.ativa ∨ timeRemaining ≤ 0) :
    handleEnviarPizza (some r) sabor pizzas L isActive timeRemaining novoId
        equipeId agora
      = EnvioResultado.tempoEsgotado := by
  have hpode : podeEnviarPizza (some r) isActive timeRemaining = false := by
    rw [podeEnviarPizza]
    rcases h with h | h
    · rw [if_pos (by simp [h])]
    · by_cases hst : r.status = RodadaStatus.ativa
      · rw [if_neg (by simp [hst]), if_pos (by simp; omega)]
      · rw [if_pos (by simp [hst])]
  simp only [handleEnviarPizza, hsabor, Bool.false_eq_true, if_false, hpode,
    Bool.not_false, if_true]

/-- Iterated submissions of the same team in the same round, starting from an
empty per-team list; a refused submission leaves the list unchanged. -/
def enviarSequencia (r : Rodada) (sabor : String) (L : Nat) (equipeId : String) :
    Nat → List Pizza
  | 0 => []
  | n + 1 =>
    let prev := enviarSequencia r sabor L equipeId n
    match handleEnviarPizza (some r) sabor prev L true 1 n equipeId 0 with
    | EnvioResultado.enviado l => l
    | _ => prev

/-- Each of the first `L` iterated submissions is accepted and appends one
row. -/
theorem enviarSequencia_length (r : Rodada) (sabor : String) (L : Nat)
    (equipeId : String) (hst : r.status = RodadaStatus.ativa)
    (hsabor : sabor.isEmpty = false) :
    ∀ k : Nat, k ≤ L → (enviarSequencia r sabor L equipeId k).length = k := by
  intro k
  induction k with
  | zero => intro _; rfl
  | succ n ih =>
    intro hk
    have hlen : (enviarSequencia r sabor L equipeId n).length = n :=
      ih (Nat.le_of_succ_le hk)
    have hsucc := handleEnviarPizza_sucesso r sabor
      (enviarSequencia r sabor L equipeId n) L 1 n equipeId 0 hst hsabor
      (by omega) (by omega)
    rw [enviarSequencia]
    simp only [hsucc, List.length_append, hlen, List.length_cons, List.length_nil]

/-- Claim C5: with the per-round limit `L`, an active round and a selected
flavor, a team's submission is accepted exactly while fewer than `L` of its
items exist in the round and refused with the quota error once `L` exist;
the per-team list counts every created item regardless of status or result;
iterating from an empty list, each of the first `L` submissions succeeds
(the list grows to length `L`) and the `(L+1)`-th is refused. -/
theorem quota_enforcement :
    ∀ (r : Rodada) (sabor : String) (L : Nat) (equipeId : String),
      r.status = RodadaStatus.ativa → sabor.isEmpty = false →
      (∀ (pizzas : List Pizza) (timeRemaining : Int) (novoId : Nat) (agora : Int),
        0 < timeRemaining → pizzas.length < L →
          handleEnviarPizza (some r) sabor pizzas L true timeRemaining novoId
              equipeId agora
            = EnvioResultado.enviado
                (pizzas ++ [pizzaNova novoId equipeId r.id sabor agora])) ∧
      (∀ (pizzas : List Pizza) (timeRemaining : Int) (novoId : Nat) (agora : Int),
        0 < timeRemaining → L ≤ pizzas.length →
          handleEnviarPizza (some r) sabor pizzas L true timeRemaining novoId
              equipeId agora
            = EnvioResultado.limiteAtingido) ∧
      (∀ (p : Pizza) (s : List Pizza) (rodadaId : String),
        p ∈ s → p.equipe_id = equipeId → p.rodada_id = rodadaId →
          p ∈ pizzasDaEquipeNaRodada s equipeId rodadaId) ∧
      (∀ k : Nat, k ≤ L → (enviarSequencia r sabor L equipeId k).length = k) ∧
      handleEnviarPizza (some r) sabor (enviarSequencia r sabor L equipeId L) L
          true 1 0 equipeId 0
        = EnvioResultado.limiteAtingido := by
  intro r sabor L equipeId hst hsabor
  refine ⟨?_, ?_, ?_, ?_, ?_⟩
  · intro pizzas timeRemaining novoId agora htr hlen
    exact handleEnviarPizza_sucesso r sabor pizzas L timeRemaining novoId
      equipeId agora hst hsabor htr hlen
  · intro pizzas timeRemaining novoId agora htr hlen
    exact handleEnviarPizza_limite r sabor pizzas L timeRemaining novoId
      equipeId agora hst hsabor htr hlen
  · intro p s rodadaId hp heq hrid
    rw [pizzasDaEquipeNaRodada, List.mem_filter, decide_eq_true_eq]
    exact ⟨hp, heq, hrid⟩
  · exact enviarSequencia_length r sabor L equipeId hst hsabor
  · exact handleEnviarPizza_limite r sabor _ L 1 0 equipeId 0 hst hsabor
      (by omega)
      (by rw [enviarSequencia_length r sabor L equipeId hst hsabor L le_rfl])

/-- Witness for C5 at concrete inputs: limit 2, active round `r1`, flavor
`m`; the first two submissions fill the list and the third is refused. -/
theorem quota_enforcement_witness :
    (enviarSequencia
        { id := "r1", numero := 1, status := RodadaStatus.ativa,
          tempo_limite := 300, iniciou_em := some 0, finalizou_em := none }
        "m" 2 "e1" 2).length = 2 ∧
    handleEnviarPizza
        (some { id := "r1", numero := 1, status := RodadaStatus.ativa,
                tempo_limite := 300, iniciou_em := some 0, finalizou_em := none })
        "m"
        (enviarSequencia
          { id := "r1", numero := 1, status := RodadaStatus.ativa,
            tempo_limite := 300, iniciou_em := some 0, finalizou_em := none }
          "m" 2 "e1" 2) 2 true 1 0 "e1" 0
      = EnvioResultado.limiteAtingido := by
  constructor
  · exact (quota_enforcement
      { id := "r1", numero := 1, status := RodadaStatus.ativa,
        tempo_limite := 300, iniciou_em := some 0, finalizou_em := none }
      "m" 2 "e1" rfl (by decide)).2.2.2.1 2 le_rfl
  · exact (quota_enforcement
      { id := "r1", numero := 1, status := RodadaStatus.ativa,
        tempo_limite := 300, iniciou_em := some 0, finalizou_em := none }
      "m" 2 "e1" rfl (by decide)).2.2.2.2

/-- Claim C6: with a current round and a selected flavor, the submission is
refused with the round-not-accepting error whenever the round is not `ativa`
or the synchronized timer reports remaining time at or below zero; otherwise
(timer active and positive, quota not reached) the item is created directly
in `pronta` (ready) status. -/
theorem round_not_accepting_gate :
    ∀ (r : Rodada) (sabor : String) (pizzas : List Pizza) (L : Nat)
      (isActive : Bool) (timeRemaining : Int) (novoId : Nat) (equipeId : String)
      (agora : Int),
      sabor.isEmpty = false →
      ((r.status ≠ RodadaStatus.ativa ∨ timeRemaining ≤ 0) →
        handleEnviarPizza (some r) sabor pizzas L isActive timeRemaining novoId
            equipeId agora
          = EnvioResultado.tempoEsgotado) ∧
      (r.status = RodadaStatus.ativa → isActive = true → 0 < timeRemaining →
        pizzas.length < L →
        handleEnviarPizza (some r) sabor pizzas L isActive timeRemaining novoId
            equipeId agora
          = EnvioResultado.enviado
              (pizzas ++ [pizzaNova novoId equipeId r.id sabor agora]) ∧
        (pizzaNova novoId equipeId r.id sabor agora).status
          = PizzaStatus.pronta) := by
  intro r sabor pizzas L isActive timeRemaining novoId equipeId agora hsabor
  constructor
  · intro h
    exact handleEnviarPizza_tempoEsgotado r sabor pizzas L isActive
      timeRemaining novoId equipeId agora hsabor h
  · intro hst hact htr hlen
    subst hact
    exact ⟨handleEnviarPizza_sucesso r sabor pizzas L timeRemaining novoId
      equipeId agora hst hsabor htr hlen, rfl⟩

/-- Witness for C6 at concrete inputs: a finished round refuses the
submission; an active round with 10 s left accepts it with a `pronta` row. -/
theorem round_not_accepting_gate_witness :
    handleEnviarPizza
        (some { id := "r1", numero := 1, status := RodadaStatus.finalizada,
                tempo_limite := 300, iniciou_em := some 0,
                finalizou_em := some 1000 })
        "m" [] 2 true 10 0 "e1" 0
      = EnvioResultado.tempoEsgotado ∧
    handleEnviarPizza
        (some { id := "r1", numero := 1, status := RodadaStatus.ativa,
                tempo_limite := 300, iniciou_em := some 0, finalizou_em := none })
        "m" [] 2 true 10 0 "e1" 0
      = EnvioResultado.enviado [pizzaNova 0 "e1" "r1" "m" 0] := by
  constructor
  · exact (round_not_accepting_gate
      { id := "r1", numero := 1, status := RodadaStatus.finalizada,
        tempo_limite := 300, iniciou_em := some 0, finalizou_em := some 1000 }
      "m" [] 2 true 10 0 "e1" 0 (by decide)).1 (Or.inl (by decide))
  · exact ((round_not_accepting_gate
      { id := "r1", numero := 1, status := RodadaStatus.ativa,
        tempo_limite := 300, iniciou_em := some 0, finalizou_em := none }
      "m" [] 2 true 10 0 "e1" 0 (by decide)).2 rfl rfl (by omega) (by decide)).1

/-- The mutable subscription handles of `usePizzasParaAvaliacao`:
`channelRef.current` (the channel handle, if any), `isSubscribedRef.current`
(set only once the subscribe status callback reports `SUBSCRIBED`), and the
accumulated list of channels passed to `supabase.removeChannel`. -/
structure ChannelLifecycleState where
  channelRef : Option Nat
  isSubscribedRef : Bool
  removedChannels : List Nat
deriving DecidableEq, Repr

/-- `cleanupChannel` (usePizzasParaAvaliacao), the teardown run by the effect
destructor: the channel is removed, the ref cleared and the flag reset only
when `channelRef.current && isSubscribedRef.current` both hold; otherwise
nothing is done. -/
def cleanupChannel (st : ChannelLifecycleState) : ChannelLifecycleState :=
  match st.channelRef with
  | some c =>
    if st.isSubscribedRef then
      { channelRef := none, isSubscribedRef := false,
        removedChannels := c :: st.removedChannels }
    else st
  | none => st

/-- Claim C7 is violated by `cleanupChannel`: a channel whose subscription
never reached the `SUBSCRIBED` state (`isSubscribedRef = false`) is not torn
down — teardown leaves `channelRef` set and removes nothing — while a
subscribed channel is removed and the refs are cleared.  The first conjunct
evaluates the code at the failing input; the second shows the guarded branch
that the never-subscribed case misses. -/
theorem cleanupChannel_skips_unsubscribed :
    cleanupChannel
        { channelRef := some 7, isSubscribedRef := false, removedChannels := [] }
      = { channelRef := some 7, isSubscribedRef := false,
          removedChannels := [] } ∧
    cleanupChannel
        { channelRef := some 7, isSubscribedRef := true, removedChannels := [] }
      = { channelRef := none, isSubscribedRef := false,
          removedChannels := [7] } := by
  exact ⟨rfl, rfl⟩
